import Mathlib

/-!
Shallow embedding of the Minerva rotary switching-valve firmware
(src/Minerva/Arduino_Code/SwitchingValve.cpp, stepper variant;
src/Minerva/Releases/Version_1.0.0/Arduino_Code/SwitchingValveDCMotor.cpp,
DC-motor variant; src/Minerva/Releases/Version_1.0.0/Arduino_Code/HelperFunctions.cpp).

Hardware interaction is modelled by explicit input traces: successive
readHallSensorSignal results are a list of Int, successive millis() reads a
list of Nat (uint32 values).  Loops are embedded as fuel-indexed structural
recursions returning Option: none means the input trace or fuel ran out.
-/

namespace Minerva

set_option maxRecDepth 8192

/-- The C function mod from HelperFunctions.cpp lines 12-14:
x less than 0 gives ((x+1)%y)+y-1, otherwise x%y, where % is C truncated
remainder, modelled by Int.tmod. -/
def cmod (x y : Int) : Int :=
  if x < 0 then (Int.tmod (x + 1) y) + y - 1 else Int.tmod x y

/-- 2 to the 32, the modulus of unsigned long arithmetic on the Arduino. -/
def U32 : Nat := 4294967296

/-- The unsigned 32-bit subtraction (unsigned long)(now - start) performed in
isTimedOut, HelperFunctions.cpp line 17, for uint32 operand values. -/
def u32sub (now start : Nat) : Nat :=
  (now + (U32 - start % U32)) % U32

/-- isTimedOut from HelperFunctions.cpp lines 16-18: the wrapped difference of
the clock reading and startTime is compared against the timeout, the int
timeout being converted to unsigned long for the comparison (modelled by
Int.emod U32, which for the nonnegative timeouts used by all callers is the
identity). -/
def isTimedOut (now start : Nat) (timeout : Int) : Bool :=
  decide ((u32sub now start : Int) > timeout % (U32 : Int))

/-- Fields of a SwitchingValve / SwitchingValveDCMotor object that the
position-control and calibration logic reads or writes, plus a flag tracking
whether the motor driver is currently enabled (sleepPin / dcMotorPin writes). -/
structure ValveState where
  currentPos : Nat
  errors : Nat
  idle : Int
  threshold : Int
  ports : Nat
  reversedPolarityPos : Nat
  motorEnabled : Bool
deriving DecidableEq, Repr

/-- Input traces consumed by a run: successive hall-sensor reads and
successive millis() values. -/
structure Env where
  sensor : List Int
  clock : List Nat
deriving DecidableEq, Repr

/-- The test abs(hallSignal - hallSensorIdleSignal) >= hallSensorThreshold
used throughout both variants. -/
def devAbove (st : ValveState) (h : Int) : Bool :=
  decide (|h - st.idle| ≥ st.threshold)

/-- The direction / transition-count computation at the head of
SwitchingValve::gotoPosition (lines 95-101); the DC variant (lines 85-91)
computes the same transition count.  Returns (dir, signalSteps) where
dir 1 is the branch travelling mod(target-current, ports) transitions and
dir -1 the branch travelling ports minus that many. -/
def chooseMove (current target ports : Nat) : Int × Nat :=
  let f := cmod ((target : Int) - (current : Int)) (ports : Int)
  if f < (ports : Int) / 2 then (1, f.toNat)
  else (-1, ((ports : Int) - f).toNat)

/-- For operands in the range produced by gotoPosition (both positions in
[0, ports)), the C helper mod agrees with mathematical mod, Int.emod. -/
theorem cmod_eq_emod (x : Int) (N : Int) (hN : 0 < N) (hlo : -N < x) (hhi : x < N) :
    cmod x N = x % N := by
  unfold cmod
  split
  · have h0 : (-(x + 1)).tdiv N = 0 := Int.tdiv_eq_zero_of_lt (by omega) (by omega)
    have h1 : (x + 1).tdiv N = 0 := by
      have h2 := Int.neg_tdiv (-(x + 1)) N
      rw [neg_neg, h0, neg_zero] at h2
      exact h2
    have h3 : Int.tmod (x + 1) N = x + 1 := by
      rw [Int.tmod_def, h1, Int.mul_zero, Int.sub_zero]
    have h4 : x % N = x + N := by
      have h5 := @Int.add_emod_self x N
      rw [← h5, Int.emod_eq_of_lt (by omega) (by omega)]
    rw [h3, h4]
    omega
  · exact Int.tmod_eq_emod (by omega) (by omega)

/-- Timeout constant of SwitchingValve::gotoPosition and initializeValve
(SwitchingValve.cpp lines 86 and 147). -/
def stepperTimeout : Int := 2000

/-- The coarse-adjustment loop of SwitchingValve::gotoPosition
(lines 105-124).  Each iteration: takeSteps (no observable effect), a
timeout check consuming one clock value, a sensor read consuming one sensor
value, then the hysteresis-gated transition count.  On timeout the stepper
code sets errors to 3, disables the driver and returns true (line 111).
Sum.inl is a function return; Sum.inr carries the remaining traces, the last
hall reading and the hysteresis flag into the fine phase.  The byte counter
wraps at 256. -/
def stepperCoarse (st : ValveState) (startT : Nat) (steps : Nat) :
    Nat → List Int → List Nat → Nat → Bool → Int →
    Option ((Bool × ValveState) ⊕ (List Int × List Nat × Int × Bool))
  | 0, _, _, _, _, _ => none
  | fuel + 1, sensor, clock, counter, above, hall =>
    if counter ≤ steps then
      match clock with
      | [] => none
      | now :: clock1 =>
        if isTimedOut now startT stepperTimeout then
          some (Sum.inl (true, { st with errors := 3, motorEnabled := false }))
        else
          match sensor with
          | [] => none
          | h :: sensor1 =>
            let cross := !above && devAbove st h
            let counter1 := if cross then (counter + 1) % 256 else counter
            let above1 := if devAbove st h then (above || cross) else false
            stepperCoarse st startT steps fuel sensor1 clock1 counter1 above1 h
    else
      some (Sum.inr (sensor, clock, hall, above))

/-- The fine-adjustment loop of SwitchingValve::gotoPosition (lines 126-138)
together with the success epilogue (lines 140-143).  The loop keeps climbing
while the signal is below threshold or the deviation is still not decreasing;
a timeout inside it sets errors to 3 and returns false; normal exit disables
the driver, commits the target position and clears the error. -/
def stepperFine (st : ValveState) (startT : Nat) (target : Nat) :
    Nat → List Int → List Nat → Bool → Int → Int →
    Option (Bool × ValveState)
  | 0, _, _, _, _, _ => none
  | fuel + 1, sensor, clock, above, lastRead, hall =>
    if !above || (above && decide (|lastRead - st.idle| ≤ |hall - st.idle|)) then
      match clock with
      | [] => none
      | now :: clock1 =>
        if isTimedOut now startT stepperTimeout then
          some (false, { st with errors := 3, motorEnabled := false })
        else
          match sensor with
          | [] => none
          | h :: sensor1 =>
            stepperFine st startT target fuel sensor1 clock1 (devAbove st h) hall h
    else
      some (true, { st with currentPos := target, errors := 0, motorEnabled := false })

/-- SwitchingValve::gotoPosition (lines 85-144).  Consumes one clock value for
startTime, chooses direction and transition count, enables the driver, then
runs the coarse and fine phases.  none means the input traces or the fuel ran
out before the function returned. -/
def stepperGoto (st : ValveState) (target : Nat) (env : Env) (fuel : Nat) :
    Option (Bool × ValveState) :=
  match env.clock with
  | [] => none
  | t0 :: clock1 =>
    let move := chooseMove st.currentPos target st.ports
    let st1 := { st with motorEnabled := true }
    match stepperCoarse st1 t0 move.2 fuel env.sensor clock1 0 false 0 with
    | none => none
    | some (Sum.inl r) => some r
    | some (Sum.inr (sensor1, clock2, hall, above)) =>
      stepperFine st1 t0 target fuel sensor1 clock2 above hall hall

/-- The finalization step of SwitchingValve::initializeValve (lines 287-292):
back off one step, disable the driver, set the position to the
reversed-polarity reference port, call gotoPosition(0), then unconditionally
clear the error code and return true. -/
def stepperFinalize (st : ValveState) (env : Env) (fuel : Nat) :
    Option (Bool × ValveState) :=
  match stepperGoto
      { st with motorEnabled := false, currentPos := st.reversedPolarityPos }
      0 env fuel with
  | none => none
  | some (_, st1) => some (true, { st1 with errors := 0 })

/-- A stepper valve state right after a successful calibration: 6 ports,
reference port 3, idle signal 512, threshold 55, at logical position 0. -/
def calibratedState : ValveState :=
  { currentPos := 0, errors := 0, idle := 512, threshold := 55, ports := 6,
    reversedPolarityPos := 3, motorEnabled := false }

/-- The state produced by a coarse-phase timeout starting from
calibratedState: error code 3 (Timeout), actuation halted, position still 0. -/
def coarseTimeoutState : ValveState :=
  { calibratedState with errors := 3 }

/-- C1: on a time budget overrun in the coarse phase, the stepper
SwitchingValve::gotoPosition (line 111) sets error 3 (Timeout), halts
actuation and leaves the stored position unchanged, but returns true, the
success value, instead of returning failure as the claim states: here a
gotoPosition(1) call from position 0 whose first coarse-loop timeout check
sees 3000 ms elapsed of the 2000 ms budget returns true with errors 3.  (The
fine phase, line 132, and the DC variant, line 98, do return false.) -/
theorem claim1_coarse_timeout_returns_true :
    stepperGoto calibratedState 1 { sensor := [], clock := [0, 3000] } 20 =
      some (true, coarseTimeoutState) ∧
    coarseTimeoutState.errors = 3 ∧
    coarseTimeoutState.motorEnabled = false ∧
    coarseTimeoutState.currentPos = calibratedState.currentPos :=
  ⟨rfl, rfl, rfl, rfl⟩

/-- C3: a stepper gotoPosition(2) call from position 0 that times out in the
coarse phase returns true (the success value) while leaving currentPos at 0,
not 2, and errors at 3, not 0 — refuting the claim that every call returning
success leaves currentPosition() == target and lastError() == None. -/
theorem claim3_success_without_arrival :
    stepperGoto calibratedState 2 { sensor := [], clock := [0, 3000] } 20 =
      some (true, coarseTimeoutState) ∧
    coarseTimeoutState.currentPos ≠ 2 ∧
    coarseTimeoutState.errors ≠ 0 :=
  ⟨rfl, by decide, by decide⟩

/-- C2 counterexample: with N = 5, current = 0, target = 2 the forward
distance f = 2 is minimal (min(f, N-f) = 2), yet the code travels backward
by 3 transitions because the branch test compares f against the integer
division N/2 = 2; and with N = 6, current = 0, target = 3 (the even tie
f = N-f = 3) the code takes the backward branch (dir -1), not the forward
direction the claim predicts. -/
theorem claim2_counterexample :
    (chooseMove 0 2 5).2 ≠ min 2 (5 - 2) ∧
    chooseMove 0 2 5 = (-1, 3) ∧
    (chooseMove 0 3 6).1 ≠ 1 ∧
    chooseMove 0 3 6 = (-1, 3) := by
  refine ⟨?_, ?_, ?_, ?_⟩ <;> decide

/-- C2 amended: for current, target in [0, N), gotoPosition computes
f = (target - current) mod N and b = N - f with f + b = N, travels forward
by f transitions when f is strictly below the integer division N/2 and
backward by b transitions otherwise; the travelled count equals
min(f, N - f) except in the odd-N case 2f + 1 = N, where it is the backward
distance min(f, N - f) + 1; the even tie 2f = N resolves to the backward
direction with the (minimal) distance f. -/
theorem claim2_amended (N c t : Nat) (hN : 3 ≤ N) (hc : c < N) (ht : t < N) :
    ((((t : Int) - (c : Int)) % (N : Int)).toNat +
      ((N : Int) - (((t : Int) - (c : Int)) % (N : Int))).toNat = N) ∧
    ((((t : Int) - (c : Int)) % (N : Int) < (N : Int) / 2 →
        chooseMove c t N = (1, (((t : Int) - (c : Int)) % (N : Int)).toNat)) ∧
     (¬ (((t : Int) - (c : Int)) % (N : Int) < (N : Int) / 2) →
        chooseMove c t N =
          (-1, ((N : Int) - (((t : Int) - (c : Int)) % (N : Int))).toNat))) ∧
    (2 * (((t : Int) - (c : Int)) % (N : Int)).toNat + 1 = N →
       (chooseMove c t N).2 =
         min (((t : Int) - (c : Int)) % (N : Int)).toNat
             (N - (((t : Int) - (c : Int)) % (N : Int)).toNat) + 1) ∧
    (2 * (((t : Int) - (c : Int)) % (N : Int)).toNat + 1 ≠ N →
       (chooseMove c t N).2 =
         min (((t : Int) - (c : Int)) % (N : Int)).toNat
             (N - (((t : Int) - (c : Int)) % (N : Int)).toNat)) ∧
    (2 * (((t : Int) - (c : Int)) % (N : Int)).toNat = N →
       chooseMove c t N = (-1, (((t : Int) - (c : Int)) % (N : Int)).toNat)) := by
  have hx : cmod ((t : Int) - (c : Int)) (N : Int) = ((t : Int) - (c : Int)) % (N : Int) :=
    cmod_eq_emod _ _ (by omega) (by omega) (by omega)
  have hf0 : 0 ≤ ((t : Int) - (c : Int)) % (N : Int) :=
    Int.emod_nonneg _ (by omega)
  have hfN : ((t : Int) - (c : Int)) % (N : Int) < (N : Int) :=
    Int.emod_lt_of_pos _ (by omega)
  unfold chooseMove
  rw [hx]
  by_cases hlt : (((t : Int) - (c : Int)) % (N : Int)) < (N : Int) / 2
  · rw [if_pos hlt]
    refine ⟨by omega, ⟨fun _ => rfl, fun h => absurd hlt h⟩, by omega, by omega, by omega⟩
  · rw [if_neg hlt]
    refine ⟨by omega, ⟨fun h => absurd h hlt, fun _ => rfl⟩, ?_, ?_, ?_⟩
    · intro h
      simp only []
      omega
    · intro h
      simp only []
      omega
    · intro h
      have : ((N : Int) - (((t : Int) - (c : Int)) % (N : Int))).toNat =
          (((t : Int) - (c : Int)) % (N : Int)).toNat := by omega
      rw [this]

/-- C2 witness: instantiating the amended statement at N = 6, current = 0,
target = 2 (forward distance 2, below 6/2 = 3). -/
theorem claim2_amended_witness :
    (3 ≤ 6 ∧ 0 < 6 ∧ 2 < 6) ∧
    ((((2 : Int) - (0 : Int)) % (6 : Int)).toNat +
      ((6 : Int) - (((2 : Int) - (0 : Int)) % (6 : Int))).toNat = 6) :=
  ⟨⟨by decide, by decide, by decide⟩,
    (claim2_amended 6 0 2 (by decide) (by decide) (by decide)).1⟩

/-- C8: for uint32 clock values and a nonnegative timeout in the int range,
isTimedOut computes the elapsed time as the unsigned 32-bit wraparound-safe
difference (millis() - startTime) mod 2^32 and returns true exactly when that
elapsed value exceeds the timeout, so the test stays correct across a
millis() rollover. -/
theorem claim8_isTimedOut_wraparound (now start : Nat) (timeout : Int)
    (hnow : now < U32) (hstart : start < U32)
    (h0 : 0 ≤ timeout) (h1 : timeout < (U32 : Nat)) :
    (isTimedOut now start timeout = true ↔
      ((now : Int) - (start : Int)) % (U32 : Nat) > timeout) := by
  simp only [isTimedOut, u32sub, U32, decide_eq_true_eq, Nat.cast_ofNat] at *
  omega

/-- C8 witness: a rollover instance — the clock wrapped from near 2^32 - 1
back to 999; the elapsed time is 1999 ms, which does not exceed the 2000 ms
timeout, and a non-wrapped instance with 4000 ms elapsed, which does. -/
theorem claim8_isTimedOut_witness :
    isTimedOut 999 4294966295 2000 = false ∧ isTimedOut 5000 1000 2000 = true := by
  constructor
  · have h := claim8_isTimedOut_wraparound 999 4294966295 2000
      (by decide) (by decide) (by decide) (by decide)
    revert h
    decide
  · have h := claim8_isTimedOut_wraparound 5000 1000 2000
      (by decide) (by decide) (by decide) (by decide)
    revert h
    decide

/-- The valve state used in the C9 run: calibrated, reference port 3,
currently believed to be at port 1 when finalization begins. -/
def preFinalizeState : ValveState :=
  { currentPos := 1, errors := 0, idle := 512, threshold := 55, ports := 6,
    reversedPolarityPos := 3, motorEnabled := true }

/-- An input trace on which the inner gotoPosition(0) of the finalization
step reaches its fine phase and then times out (last clock read 5000 ms,
budget 2000 ms). -/
def finalizeEnv : Env :=
  { sensor := [662, 512, 662, 512, 662, 512, 662],
    clock := [0, 1, 2, 3, 4, 5, 6, 7, 5000] }

/-- The intermediate state from which the finalization step's inner
gotoPosition(0) runs: at the reference port 3 with the driver disabled. -/
def refPortState : ValveState :=
  { currentPos := 3, errors := 0, idle := 512, threshold := 55, ports := 6,
    reversedPolarityPos := 3, motorEnabled := false }

/-- C9: the finalization step of initializeValve sets the position to the
reference port, calls gotoPosition(0), then unconditionally clears the error
code and returns success: every terminating stepperFinalize run returns true
with errors 0, and on the concrete trace finalizeEnv the inner
gotoPosition(0) itself fails with Timeout (returns false, errors 3) yet
finalization still reports success with errors 0 and the position left at
the reference port 3, not 0. -/
theorem claim9_finalize_swallows_error :
    (∀ (st : ValveState) (env : Env) (fuel : Nat) (r : Bool × ValveState),
        stepperFinalize st env fuel = some r → r.1 = true ∧ r.2.errors = 0) ∧
    (stepperGoto refPortState 0 finalizeEnv 30 =
        some (false, { refPortState with errors := 3 }) ∧
     stepperFinalize preFinalizeState finalizeEnv 30 =
        some (true, { refPortState with errors := 0 }) ∧
     (3 : Nat) ≠ 0) := by
  constructor
  · intro st env fuel r h
    unfold stepperFinalize at h
    revert h
    cases stepperGoto
        { st with motorEnabled := false, currentPos := st.reversedPolarityPos }
        0 env fuel with
    | none => intro h; cases h
    | some p =>
      intro h
      cases h
      exact ⟨rfl, rfl⟩
  · exact ⟨rfl, rfl, by decide⟩

/-- C9 witness: applying the universal half at the concrete finalization run
whose inner gotoPosition(0) timed out. -/
theorem claim9_finalize_witness :
    (true, ({ refPortState with errors := 0 } : ValveState)).1 = true ∧
    (true, ({ refPortState with errors := 0 } : ValveState)).2.errors = 0 :=
  claim9_finalize_swallows_error.1 preFinalizeState finalizeEnv 30
    (true, { refPortState with errors := 0 }) rfl

/-- The liveness check at the start of initializeValve (stepper lines
161-171, DC lines 131-141): threshold and the idle accumulator are zeroed,
three sensor reads are summed into the idle field, and a sum of exactly zero
fails with error 1 (SensorFault) before the motor driver is ever enabled;
otherwise the driver is enabled and calibration proceeds (the idle field is
then seeded with 512: stepper line 176, DC line 145). -/
def livenessCheck (st : ValveState) (r1 r2 r3 : Int) :
    (Bool × ValveState) ⊕ ValveState :=
  let st1 := { st with threshold := 0, idle := r1 + r2 + r3 }
  if r1 + r2 + r3 = 0 then Sum.inl (false, { st1 with errors := 1 })
  else Sum.inr { st1 with idle := 512, motorEnabled := true }

/-- C7: initializeValve accumulates three idle sensor reads and fails with
SensorFault (error 1), returning failure with the motor state untouched,
exactly when the accumulated value is zero; otherwise calibration proceeds
with the driver enabled. -/
theorem claim7_liveness_check (st : ValveState) (r1 r2 r3 : Int) :
    (r1 + r2 + r3 = 0 →
       livenessCheck st r1 r2 r3 =
           Sum.inl (false, { st with threshold := 0, idle := 0, errors := 1 }) ∧
         ({ st with threshold := 0, idle := 0, errors := 1 } : ValveState).motorEnabled
           = st.motorEnabled) ∧
    (r1 + r2 + r3 ≠ 0 →
       livenessCheck st r1 r2 r3 =
         Sum.inr { st with threshold := 0, idle := 512, motorEnabled := true }) := by
  constructor
  · intro h
    constructor
    · simp [livenessCheck, h]
    · rfl
  · intro h
    simp [livenessCheck, h]

/-- C7 witness: a dead sensor (three zero reads) fails the liveness check
with error 1, and live reads (512, 511, 513) pass it. -/
theorem claim7_liveness_witness :
    livenessCheck calibratedState 0 0 0 =
        Sum.inl (false, { calibratedState with threshold := 0, idle := 0, errors := 1 }) ∧
    livenessCheck calibratedState 512 511 513 =
        Sum.inr { calibratedState with threshold := 0, idle := 512, motorEnabled := true } :=
  ⟨((claim7_liveness_check calibratedState 0 0 0).1 (by decide)).1,
   (claim7_liveness_check calibratedState 512 511 513).2 (by decide)⟩

/-- One iteration of the polarity-census update (stepper lines 221-231, DC
lines 184-195): on a new above-threshold crossing the peak is classified by
sign against the idle signal into the positive or negative byte counter; the
hysteresis flag drops once the deviation falls below threshold. -/
def censusUpdate (st : ValveState) (acc : Nat × Nat × Bool) (h : Int) :
    Nat × Nat × Bool :=
  if !acc.2.2 && devAbove st h then
    (if h > st.idle then (acc.1 + 1) % 256 else acc.1,
     if h > st.idle then acc.2.1 else (acc.2.1 + 1) % 256,
     true)
  else
    (acc.1, acc.2.1, if devAbove st h then acc.2.2 else false)

/-- The polarity counters produced by folding the census update over a trace
of sensor reads, starting from the hysteresis state of the read taken just
before the census rotation (stepper lines 216-217). -/
def censusCounts (st : ValveState) (trace : List Int) (above0 : Bool) :
    Nat × Nat × Bool :=
  trace.foldl (censusUpdate st) (0, 0, above0)

/-- The stepper census acceptance test (SwitchingValve.cpp line 235):
abs(posPolarityCounter - negPolarityCounter) == ports - 2. -/
def stepperCensusOk (p n ports : Nat) : Bool :=
  decide (|(p : Int) - (n : Int)| = (ports : Int) - 2)

/-- The DC-motor census acceptance test (SwitchingValveDCMotor.cpp line 203),
taken over a census of 2*ports detected peaks:
abs(posPolarityCounter - negPolarityCounter) == 2*(ports - 2). -/
def dcCensusOk (p n ports : Nat) : Bool :=
  decide (|(p : Int) - (n : Int)| = 2 * ((ports : Int) - 2))

/-- The census gate (stepper lines 235-239): a failed acceptance test
disables the driver, sets error 2 (PolarityFault) and returns false;
otherwise initialization continues. -/
def censusGate (st : ValveState) (p n : Nat) : (Bool × ValveState) ⊕ ValveState :=
  if !(stepperCensusOk p n st.ports) then
    Sum.inl (false, { st with errors := 2, motorEnabled := false })
  else Sum.inr st

/-- A calibrated 3-port stepper valve state, used to exercise the census on
the smallest port count the data model admits. -/
def threePortState : ValveState :=
  { currentPos := 0, errors := 0, idle := 512, threshold := 55, ports := 3,
    reversedPolarityPos := 1, motorEnabled := true }

/-- C4 counterexample: on a 3-port valve, a census rotation over a synthetic
trace with TWO reversed-polarity magnets (deviation -150) and one normal
magnet (deviation +150) yields counters (1, 2), and |1 - 2| = 1 = ports - 2,
so the census gate passes (and the DC acceptance test passes on the doubled
two-rotation counters as well) — the claim that a layout with 2 reversed
magnets always fails with PolarityFault is false at N = 3.  Moreover a DC
census observing exactly N - 2 = 4 more majority peaks (counters 4 and 0,
N = 6) is REJECTED by the DC variant, which demands 2*(N - 2) over its
two-rotation census, against the claim's literal N - 2. -/
theorem claim4_counterexample :
    censusCounts threePortState [362, 512, 362, 512, 662, 512] false = (1, 2, false) ∧
    stepperCensusOk 1 2 3 = true ∧
    censusGate threePortState 1 2 = Sum.inr threePortState ∧
    dcCensusOk 2 4 3 = true ∧
    dcCensusOk 4 0 6 = false := by
  refine ⟨?_, ?_, ?_, ?_, ?_⟩ <;> decide

/-- C4 amended: over a census in which r of the N magnets read with reversed
polarity (counters N - r and r for the stepper's one rotation, doubled for
the DC variant's two rotations), the acceptance test passes exactly when
r = 1 or r = N - 1; hence a layout with 0 reversed magnets always fails with
PolarityFault, and one with 2 reversed magnets fails except when N = 3,
where 2 = N - 1 reversed magnets is indistinguishable from 1 by the absolute
counter difference; any failed test makes initializeValve set error 2 and
return false. -/
theorem claim4_amended (N r : Nat) (hN : 3 ≤ N) (hr : r ≤ N) :
    (stepperCensusOk (N - r) r N = true ↔ (r = 1 ∨ r + 1 = N)) ∧
    (dcCensusOk (2 * (N - r)) (2 * r) N = true ↔ (r = 1 ∨ r + 1 = N)) ∧
    (∀ (st : ValveState) (p n : Nat), stepperCensusOk p n st.ports = false →
       censusGate st p n = Sum.inl (false, { st with errors := 2, motorEnabled := false })) := by
  refine ⟨?_, ?_, ?_⟩
  · simp only [stepperCensusOk, decide_eq_true_eq,
      abs_eq (by omega : (0 : Int) ≤ (N : Int) - 2)]
    omega
  · simp only [dcCensusOk, decide_eq_true_eq,
      abs_eq (by omega : (0 : Int) ≤ 2 * ((N : Int) - 2))]
    omega
  · intro st p n h
    simp [censusGate, h]

/-- C4 witness: the intended layout, one reversed magnet among N = 6, passes
the stepper acceptance test. -/
theorem claim4_amended_witness : stepperCensusOk 5 1 6 = true :=
  (claim4_amended 6 1 (by decide) (by decide)).1.mpr (Or.inl rfl)

/-- The reference-localization search loop of SwitchingValve::initializeValve
(lines 248-266): while at most 2*ports crossings have been counted, each
iteration checks the timeout (consuming a clock value; on expiry error 3 and
return false), reads the sensor, and on a new above-threshold crossing
increments the byte counter, breaking out when the peak's polarity differs
from the established majority.  Sum.inl is a function return; Sum.inr carries
the crossing counter (with the remaining traces, last reading and hysteresis
flag) to the exit check. -/
def refSearchLoop (st : ValveState) (startT : Nat) (majority : Bool) :
    Nat → List Int → List Nat → Nat → Bool → Int →
    Option ((Bool × ValveState) ⊕ (Nat × List Int × List Nat × Int × Bool))
  | 0, _, _, _, _, _ => none
  | fuel + 1, sensor, clock, counter, above, hall =>
    if counter ≤ 2 * st.ports then
      match clock with
      | [] => none
      | now :: clock1 =>
        if isTimedOut now startT stepperTimeout then
          some (Sum.inl (false, { st with errors := 3, motorEnabled := false }))
        else
          match sensor with
          | [] => none
          | h :: sensor1 =>
            if !above && devAbove st h then
              if (decide (h > st.idle)) != majority then
                some (Sum.inr ((counter + 1) % 256, sensor1, clock1, h, true))
              else
                refSearchLoop st startT majority fuel sensor1 clock1
                  ((counter + 1) % 256) true h
            else
              refSearchLoop st startT majority fuel sensor1 clock1 counter
                (if devAbove st h then above else false) h
    else
      some (Sum.inr (counter, sensor, clock, hall, above))

/-- The exit check following the search loop (lines 268-272): a crossing
counter of at least 2*ports means the reversed-polarity reference peak was
not found; the code then sets error 2 (PolarityFault) and returns false. -/
def refExitCheck (st : ValveState) (counter : Nat) : (Bool × ValveState) ⊕ ValveState :=
  if 2 * st.ports ≤ counter then
    Sum.inl (false, { st with errors := 2, motorEnabled := false })
  else Sum.inr st

/-- Reference localization (lines 244-272): if the reading left over from the
census is already above threshold with minority polarity, the position is set
to the reference port directly; otherwise the search loop runs; both paths
flow into the exit check. -/
def refLocate (st : ValveState) (majority : Bool) (startT : Nat)
    (above0 : Bool) (hall0 : Int) (env : Env) (fuel : Nat) :
    Option ((Bool × ValveState) ⊕ ValveState) :=
  if above0 && ((decide (hall0 > st.idle)) != majority) then
    some (refExitCheck { st with currentPos := st.reversedPolarityPos } 0)
  else
    match refSearchLoop st startT majority fuel env.sensor env.clock 0 above0 hall0 with
    | none => none
    | some (Sum.inl r) => some (Sum.inl r)
    | some (Sum.inr (counter, _, _, _, _)) => some (refExitCheck st counter)

/-- Any early return out of the reference search loop is the timeout return:
false with error code 3. -/
theorem refSearchLoop_inl_eq_timeout :
    ∀ (fuel : Nat) (st : ValveState) (startT : Nat) (majority : Bool)
      (sensor : List Int) (clock : List Nat) (counter : Nat) (above : Bool)
      (hall : Int) (r : Bool × ValveState),
      refSearchLoop st startT majority fuel sensor clock counter above hall =
          some (Sum.inl r) →
      r = (false, { st with errors := 3, motorEnabled := false }) := by
  intro fuel
  induction fuel with
  | zero =>
    intro st startT majority sensor clock counter above hall r h
    simp [refSearchLoop] at h
  | succ n ih =>
    intro st startT majority sensor clock counter above hall r h
    rw [refSearchLoop.eq_def] at h
    simp only at h
    split at h
    · cases clock with
      | nil => simp at h
      | cons now clock1 =>
        simp only at h
        split at h
        · simp only [Option.some.injEq, Sum.inl.injEq] at h
          exact h.symm
        · cases sensor with
          | nil => simp at h
          | cons hd sensor1 =>
            simp only at h
            split at h
            · split at h
              · simp at h
              · exact ih st startT majority sensor1 clock1 _ true hd r h
            · exact ih st startT majority sensor1 clock1 counter _ hd r h
    · simp at h

/-- The 14-read trace of a 3-port search loop run that sees 7 consecutive
majority-polarity peaks and never a minority one. -/
def exhaustedSearchEnv : Env :=
  { sensor := [662, 512, 662, 512, 662, 512, 662, 512, 662, 512, 662, 512, 662, 512],
    clock := [0, 0, 0, 0, 0, 0, 0, 0, 0, 0, 0, 0, 0, 0] }

/-- C5 counterexample: a 3-port reference localization that detects 7 > 2N = 6
majority-polarity peaks without finding the reversed one, and without the
wall-clock timeout ever expiring, fails with error code 2 (PolarityFault),
not 3 (Timeout) as the claim states. -/
theorem claim5_counterexample :
    refLocate threePortState true 0 false 512 exhaustedSearchEnv 30 =
      some (Sum.inl (false, { threePortState with errors := 2, motorEnabled := false })) ∧
    ({ threePortState with errors := 2, motorEnabled := false } : ValveState).errors ≠ 3 :=
  ⟨rfl, by decide⟩

/-- C5 amended: during reference localization, an expired wall-clock timeout
is the only early return out of the search loop and carries error 3
(Timeout) — shown in general for the loop and on a concrete run — while
exhausting the crossing budget (counter at least 2N, i.e. no minority peak
among the first 2N - 1 detected crossings) makes initializeValve fail with
error code 2 (PolarityFault), not Timeout. -/
theorem claim5_amended :
    (∀ (fuel : Nat) (st : ValveState) (startT : Nat) (majority : Bool)
        (sensor : List Int) (clock : List Nat) (counter : Nat) (above : Bool)
        (hall : Int) (r : Bool × ValveState),
        refSearchLoop st startT majority fuel sensor clock counter above hall =
            some (Sum.inl r) →
        r.1 = false ∧ r.2.errors = 3) ∧
    (∀ (st : ValveState) (counter : Nat), 2 * st.ports ≤ counter →
        refExitCheck st counter =
          Sum.inl (false, { st with errors := 2, motorEnabled := false })) ∧
    refLocate threePortState true 0 false 512 { sensor := [], clock := [5000] } 30 =
      some (Sum.inl (false, { threePortState with errors := 3, motorEnabled := false })) := by
  refine ⟨?_, ?_, rfl⟩
  · intro fuel st startT majority sensor clock counter above hall r h
    have h1 := refSearchLoop_inl_eq_timeout fuel st startT majority sensor clock
      counter above hall r h
    rw [h1]
    exact ⟨rfl, rfl⟩
  · intro st counter h
    simp [refExitCheck, h]

/-- C5 witness: the loop lemma applied to the concrete one-iteration timeout
run, and the exit check applied at a counter of 7 on the 3-port state. -/
theorem claim5_amended_witness :
    ((false, ({ threePortState with errors := 3, motorEnabled := false } : ValveState)).1
        = false ∧
     (false, ({ threePortState with errors := 3, motorEnabled := false } : ValveState)).2.errors
        = 3) ∧
    refExitCheck threePortState 7 =
      Sum.inl (false, { threePortState with errors := 2, motorEnabled := false }) :=
  ⟨claim5_amended.1 30 threePortState 0 true [] [5000] 0 false 512
      (false, { threePortState with errors := 3, motorEnabled := false }) rfl,
   claim5_amended.2.1 threePortState 7 (by decide)⟩

/-- The number of interior local minima found by the baseline scan of the
DC-motor initializeValve (SwitchingValveDCMotor.cpp lines 160-165): an index
i with sensorSignals at i-1 and i+1 both at least sensorSignals at i.  Each
such minimum is written to minValuesTmp at the running index j with no bound
check (line 162), so the k-th minimum is written at offset k (0-based) of the
64-element buffer. -/
def countLocalMin : List Int → Nat
  | a :: b :: c :: rest =>
    (if b ≤ a ∧ b ≤ c then 1 else 0) + countLocalMin (b :: c :: rest)
  | _ => 0

/-- The scan writes at offsets 0 .. countLocalMin - 1; they all land inside
the 64-element scratch buffer exactly when the count is at most 64. -/
def minWritesInBounds (trace : List Int) : Prop :=
  ∀ j : Nat, j < countLocalMin trace → j < 64

instance (trace : List Int) : Decidable (minWritesInBounds trace) :=
  Nat.decidableBallLT (countLocalMin trace) fun j _ => j < 64

/-- The interior scan sees at most length - 2 candidate indices. -/
theorem countLocalMin_le (trace : List Int) : countLocalMin trace ≤ trace.length - 2 := by
  induction trace with
  | nil => simp [countLocalMin]
  | cons a rest ih =>
    cases rest with
    | nil => simp [countLocalMin]
    | cons b rest1 =>
      cases rest1 with
      | nil => simp [countLocalMin]
      | cons c rest2 =>
        rw [countLocalMin]
        have h1 : countLocalMin (b :: c :: rest2) ≤ (b :: c :: rest2).length - 2 := ih
        simp only [List.length_cons] at h1 ⊢
        split <;> omega

/-- C10 counterexample: a constant 512-sample trace (every sample 512, a
plausible idle hall signal) makes every one of the 510 interior samples a
local minimum, so the unchecked writes to the 64-element minValuesTmp buffer
run far past its end — the claimed bound of 64 collected minima is false. -/
theorem claim10_counterexample :
    countLocalMin (List.replicate 512 512) = 510 ∧
    ¬ minWritesInBounds (List.replicate 512 512) := by
  constructor
  · rfl
  · intro h
    have hcount : countLocalMin (List.replicate 512 512) = 510 := rfl
    have h2 := h 64 (by omega)
    omega

/-- C10 amended: for a 512-sample sensor sequence the number of collected
local minima is bounded only by the 510 interior positions, not by 64; every
write of the scan stays inside the 64-element buffer exactly when the trace
has at most 64 local minima, and the 510 bound is attained (by a constant
trace), so boundedness does not hold for every possible sensor sequence. -/
theorem claim10_amended (trace : List Int) (hlen : trace.length = 512) :
    countLocalMin trace ≤ 510 ∧
    (minWritesInBounds trace ↔ countLocalMin trace ≤ 64) := by
  constructor
  · have h := countLocalMin_le trace
    omega
  · constructor
    · intro h
      by_contra hgt
      have h2 := h 64 (by omega)
      omega
    · intro h j hj
      omega

/-- C10 witness: the amended bound instantiated at the constant 512-sample
trace. -/
theorem claim10_amended_witness :
    (List.replicate 512 (512 : Int)).length = 512 ∧
    countLocalMin (List.replicate 512 (512 : Int)) ≤ 510 := by
  have hlen : (List.replicate 512 (512 : Int)).length = 512 := by
    rw [List.length_replicate]
  exact ⟨hlen, (claim10_amended (List.replicate 512 (512 : Int)) hlen).1⟩

/-- The truncating int cast of v * 0.36787 (SwitchingValve.cpp line 212).
For every 32-bit v the double product v * 0.36787 is within 3e-7 of the
rational v * 36787 / 100000, whose distance to the nearest integer is at
least 1e-5 whenever it is not an integer (36787 and 100000 are coprime), so
the C truncation toward zero equals truncated rational arithmetic. -/
def attenuate (v : Int) : Int :=
  if v < 0 then -((v.natAbs * 36787 / 100000 : Nat) : Int)
  else ((v.natAbs * 36787 / 100000 : Nat) : Int)

/-- The values |sample - idleSignal| at the interior local maxima of the
deviation over the calibration sample sequence (SwitchingValve.cpp lines
201-206): positions whose two neighbours have deviation at most the
position's own. -/
def localMaxDevs (idle : Int) : List Int → List Int
  | a :: b :: c :: rest =>
    (if |a - idle| ≤ |b - idle| ∧ |c - idle| ≤ |b - idle|
     then [|b - idle|] else []) ++ localMaxDevs idle (b :: c :: rest)
  | _ => []

/-- Writing the collected maxima into the 64-slot maxValues array at index
j % 64 (line 203), returning the final buffer and the final count j. -/
def fillWrapped (buf0 : List Int) (vs : List Int) : List Int × Nat :=
  vs.foldl (fun acc v => (acc.1.set (acc.2 % 64) v, acc.2 + 1)) (buf0, 0)

/-- The zero fill of lines 207-209: for (i = j; i < 63; i++) maxValues[i] = 0
— note it stops at index 62, leaving slot 63 holding whatever the
uninitialized stack contained (modelled by the initial buffer argument). -/
def zeroFillFrom (buf : List Int) (j : Nat) : List Int :=
  (List.range 64).foldl (fun b i => if j ≤ i ∧ i < 63 then b.set i 0 else b) buf

/-- The maxValues buffer as it stands just before sorting: collected local
maxima (wrapped mod 64), zero-filled up to slot 62, over the given initial
(stack) contents. -/
def maxBuffer (idle : Int) (trace : List Int) (buf0 : List Int) : List Int :=
  zeroFillFrom (fillWrapped buf0 (localMaxDevs idle trace)).1
    (fillWrapped buf0 (localMaxDevs idle trace)).2

/-- The stepper threshold computation (SwitchingValve.cpp lines 211-212):
shellSortKnuth sorts the 64-slot buffer ascending, the entry at index
64 - ports is picked and attenuated by 0.36787. -/
def stepperThresholdOfBuffer (buf : List Int) (ports : Nat) : Int :=
  attenuate ((List.insertionSort (· ≤ ·) buf).getD (64 - ports) 0)

/-- The threshold rule as the specification words it (spec section 4.3 step
4): sort the maxima descending and pick the value at rank (count - N), then
attenuate by 1/e.  Stated only for comparison against the implementation. -/
def specDescRankThreshold (buf : List Int) (ports : Nat) : Int :=
  attenuate ((List.insertionSort (fun a b : Int => b ≤ a) buf).getD
    (buf.length - ports) 0)

/-- The DC-motor threshold computation (SwitchingValveDCMotor.cpp line 175):
(int)(min(abs(minValue - idle), abs(maxValue - idle)) / 2.5), where minValue
and maxValue are the clipped global extrema of the sampled sequence; 2.5 is
exactly representable, so the truncation equals 2*m/5 in integers. -/
def dcThreshold (minValue maxValue idle : Int) : Int :=
  ((2 * min (minValue - idle).natAbs (maxValue - idle).natAbs / 5 : Nat) : Int)

/-- The 13-sample calibration trace of a 13-sample-per-revolution stepper
configuration (stepsPerRevolution 36): five magnets reading deviation +150
and a sixth reading +140, with baseline 512 between them. -/
def calibTrace : List Int :=
  [512, 662, 512, 662, 512, 662, 512, 662, 512, 662, 512, 652, 512]

/-- C6 counterexample: on the calibration trace calibTrace with idle 512 and
N = 6 ports the collected deviation maxima are [150, 150, 150, 150, 150,
140] and the implementation computes threshold 51 = trunc(0.36787 * 140),
picking index 64 - 6 of the ASCENDING sort of the zero-padded buffer; the
claimed rule — the value at rank (count - N) in DESCENDING order — gives 0
on the same 64-entry buffer (count 64) and 55 = trunc(0.36787 * 150) on the
collected-maxima list (count 6); both readings differ from the code.  The DC
variant computes its threshold by a different formula altogether (see the
amended statement). -/
theorem claim6_counterexample :
    localMaxDevs 512 calibTrace = [150, 150, 150, 150, 150, 140] ∧
    stepperThresholdOfBuffer (maxBuffer 512 calibTrace (List.replicate 64 0)) 6 = 51 ∧
    specDescRankThreshold (maxBuffer 512 calibTrace (List.replicate 64 0)) 6 = 0 ∧
    specDescRankThreshold [150, 150, 150, 150, 150, 140] 6 = 55 ∧
    (51 : Int) ≠ 0 ∧ (51 : Int) ≠ 55 := by
  refine ⟨?_, ?_, ?_, ?_, ?_, ?_⟩ <;> decide

/-- In an ascending-sorted list, at most length - k - 1 elements strictly
exceed the element at index k. -/
theorem sorted_countP_gt_le :
    ∀ (s : List Int), s.Sorted (· ≤ ·) → ∀ k : Nat, k < s.length →
      s.countP (fun x => decide (s.getD k 0 < x)) ≤ s.length - k - 1 := by
  intro s
  induction s with
  | nil => intro _ k hk; simp at hk
  | cons a t ih =>
    intro hs k hk
    rcases List.sorted_cons.mp hs with ⟨ha, ht⟩
    cases k with
    | zero =>
      simp only [List.getD_cons_zero, List.countP_cons, List.length_cons]
      have h2 : t.countP (fun x => decide (a < x)) ≤ t.length :=
        List.countP_le_length _
      simp only [decide_eq_true_eq]
      rw [if_neg (lt_irrefl a)]
      omega
    | succ k1 =>
      simp only [List.getD_cons_succ, List.countP_cons, List.length_cons]
      have hk1 : k1 < t.length := by simpa using hk
      have h1 := ih ht k1 hk1
      have h2 : ¬ (t.getD k1 0 < a) := by
        have h3 : a ≤ t.getD k1 0 := by
          have h4 : t.getD k1 0 ∈ t := by
            rw [List.getD_eq_getElem t 0 hk1]
            exact List.getElem_mem hk1
          exact ha _ h4
        omega
      simp only [decide_eq_true_eq, h2, if_false]
      omega

/-- In an ascending-sorted list, at least length - k elements are at least
the element at index k. -/
theorem sorted_countP_ge_ge :
    ∀ (s : List Int), s.Sorted (· ≤ ·) → ∀ k : Nat, k < s.length →
      s.length - k ≤ s.countP (fun x => decide (s.getD k 0 ≤ x)) := by
  intro s
  induction s with
  | nil => intro _ k hk; simp at hk
  | cons a t ih =>
    intro hs k hk
    rcases List.sorted_cons.mp hs with ⟨ha, ht⟩
    cases k with
    | zero =>
      simp only [List.getD_cons_zero, List.countP_cons, List.length_cons]
      have h1 : t.countP (fun x => decide (a ≤ x)) = t.length :=
        List.countP_eq_length.mpr (fun x hx => by
          simp only [decide_eq_true_eq]; exact ha x hx)
      simp only [decide_eq_true_eq, le_refl, if_true]
      omega
    | succ k1 =>
      simp only [List.getD_cons_succ, List.countP_cons, List.length_cons]
      have hk1 : k1 < t.length := by simpa using hk
      have h1 := ih ht k1 hk1
      split <;> omega

/-- C6 amended: in the stepper variant the threshold is the entry at index
64 - N of the ASCENDING sort of the 64-slot zero-padded maxima buffer — the
N-th largest entry counting duplicates, so at least N buffer entries are
greater than or equal to the picked value and at most N - 1 strictly exceed
it — attenuated by truncation of 0.36787 times the value; the DC variant
does not use a rank rule at all: its threshold is
min(|minValue - idle|, |maxValue - idle|) / 2.5 truncated, as the concrete
instance minValue 362, maxValue 700, idle 512 shows (60, against 55 for the
1/e rule applied to its smallest clipped deviation 150). -/
theorem claim6_amended :
    (∀ (buf : List Int) (N : Nat), buf.length = 64 → 1 ≤ N → N ≤ 64 →
      stepperThresholdOfBuffer buf N =
          attenuate ((List.insertionSort (· ≤ ·) buf).getD (64 - N) 0) ∧
      N ≤ buf.countP
          (fun x => decide ((List.insertionSort (· ≤ ·) buf).getD (64 - N) 0 ≤ x)) ∧
      buf.countP
          (fun x => decide ((List.insertionSort (· ≤ ·) buf).getD (64 - N) 0 < x))
        ≤ N - 1) ∧
    (dcThreshold 362 700 512 = 60 ∧ attenuate 150 = 55 ∧
      dcThreshold 362 700 512 ≠ attenuate 150) := by
  constructor
  · intro buf N hlen hN1 hN64
    have hsorted : (List.insertionSort (· ≤ ·) buf).Sorted (· ≤ ·) :=
      List.sorted_insertionSort (· ≤ ·) buf
    have hslen : (List.insertionSort (· ≤ ·) buf).length = 64 := by
      rw [List.length_insertionSort, hlen]
    have hperm : List.Perm (List.insertionSort (· ≤ ·) buf) buf :=
      List.perm_insertionSort (· ≤ ·) buf
    have hk : 64 - N < (List.insertionSort (· ≤ ·) buf).length := by omega
    refine ⟨rfl, ?_, ?_⟩
    · have h1 := sorted_countP_ge_ge (List.insertionSort (· ≤ ·) buf) hsorted (64 - N) hk
      rw [hperm.countP_eq] at h1
      omega
    · have h1 := sorted_countP_gt_le (List.insertionSort (· ≤ ·) buf) hsorted (64 - N) hk
      rw [hperm.countP_eq] at h1
      omega
  · exact ⟨by decide, by decide, by decide⟩

/-- C6 witness: the amended rank characterization instantiated on the
concrete calibration buffer of the counterexample trace with N = 6: the
picked value 140 has exactly the six entries 140 and five 150s at or above
it and the five 150s strictly above it. -/
theorem claim6_amended_witness :
    6 ≤ (maxBuffer 512 calibTrace (List.replicate 64 0)).countP
        (fun x => decide
          ((List.insertionSort (· ≤ ·) (maxBuffer 512 calibTrace (List.replicate 64 0))).getD
            (64 - 6) 0 ≤ x)) ∧
    (maxBuffer 512 calibTrace (List.replicate 64 0)).countP
        (fun x => decide
          ((List.insertionSort (· ≤ ·) (maxBuffer 512 calibTrace (List.replicate 64 0))).getD
            (64 - 6) 0 < x))
      ≤ 6 - 1 :=
  ⟨(claim6_amended.1 (maxBuffer 512 calibTrace (List.replicate 64 0)) 6
      (by decide) (by decide) (by decide)).2.1,
   (claim6_amended.1 (maxBuffer 512 calibTrace (List.replicate 64 0)) 6
      (by decide) (by decide) (by decide)).2.2⟩

end Minerva
